import Mathlib

/-!
# Verification of `Socket_Singleton`

A shallow embedding, in Lean 4, of the pure core of the
`Socket_Singleton` Python module (`src/Socket_Singleton.py`): the
role-decision logic of `__init__`, the NUL-delimited argument codec used
by `_create_client` and `_create_server`, the per-connection accept-loop
body of `_create_server`, the observer registry (`trace` / `untrace` /
`_update_observers`) and the `release` lifecycle operation.

Python strings are modelled as lists of characters (`PyStr`); the wire
level is UTF-8, and UTF-8 encode followed by decode is the identity on
well-formed strings, so the codec is modelled at the character level.
Mutable object state is modelled as an explicit `HostState` record, and
each iteration of the server's accept loop as a function
`serverStep : … → HostState → PyStr → StepOut`.  Sequential runs of the
loop are modelled by `runServer`.  Fallible operations return `Except`.
-/

namespace SocketSingleton

/-- A Python string, modelled as its list of characters. -/
abbrev PyStr := List Char

/-- Convenience conversion from a Lean string literal to a `PyStr`. -/
def pyStr (s : String) : PyStr := s.data

/-- The NUL delimiter character `"\x00"` used by the wire protocol. -/
def NUL : Char := Char.ofNat 0

/-! ## The argument codec

`_create_client` builds the wire message as
`"\x00".join(parts) + "\x00"` where `parts` is the optional secret
followed by the forwarded arguments; `_create_server` decodes it with
`data.decode("utf-8", errors="replace").rstrip("\x00").split("\x00")`
and then filters out empty segments. -/

/-- `"\x00".join(parts)`: interleave the NUL delimiter between parts. -/
def joinNul : List PyStr → PyStr
  | [] => []
  | [p] => p
  | p :: ps => p ++ NUL :: joinNul ps

/-- Client-side encoding (`_create_client`, lines 247–253): the optional
secret, then the argument list, joined by NUL with one trailing NUL. -/
def encodeMessage (secret : Option PyStr) (args : List PyStr) : PyStr :=
  joinNul ((match secret with | some s => [s] | none => []) ++ args) ++ [NUL]

/-- `str.rstrip("\x00")`: remove every trailing NUL character. -/
def rstripNul : PyStr → PyStr
  | [] => []
  | c :: cs =>
    match rstripNul cs with
    | [] => if c = NUL then [] else [c]
    | r => c :: r

/-- `str.split("\x00")`: split on every NUL; always returns at least one
(possibly empty) segment, exactly like Python's `str.split(sep)`. -/
def splitNul : PyStr → List PyStr
  | [] => [[]]
  | c :: cs =>
    if c = NUL then [] :: splitNul cs
    else
      match splitNul cs with
      | [] => [[c]]
      | p :: ps => (c :: p) :: ps

/-- Host-side decoding into raw segments (`_create_server`, lines
204–206): strip trailing NULs, then split on NUL. -/
def decodeParts (data : PyStr) : List PyStr := splitNul (rstripNul data)

/-- Drop empty segments, as in
`tuple(arg for arg in parts if arg)` (line 222). -/
def dropEmpty (ps : List PyStr) : List PyStr := ps.filter (fun a => !a.isEmpty)

/-- Host-side extraction of the argument set from one connection's data
(`_create_server`, lines 204–222): decode into segments; when a secret
is configured, reject the payload (`none`) unless the first segment
equals it exactly, and drop the secret segment; finally drop empty
segments.  `none` means the payload is ignored (`continue`). -/
def hostExtractArgs (secret : Option PyStr) (data : PyStr) : Option (List PyStr) :=
  let parts := decodeParts data
  match secret with
  | none => some (dropEmpty parts)
  | some sec =>
    match parts with
    | [] => none
    | p :: rest => if p ≠ sec then none else some (dropEmpty rest)

/-- Whether a connection's data yields a non-empty, authenticated
argument set, i.e. passes the secret check and the `if args:` test. -/
def messageYieldsArgs (secret : Option PyStr) (data : PyStr) : Bool :=
  match hostExtractArgs secret data with
  | some args => !args.isEmpty
  | none => false

/-! ## Configuration and host state -/

/-- The constructor parameters retained on the instance (post-validation;
the numeric thresholds are non-negative by the constructor's checks). -/
structure Config where
  address : String
  port : Nat
  timeout : Nat
  client : Bool
  strict : Bool
  release_threshold : Nat
  max_clients : Nat
  verbose : Bool
  secret : Option PyStr
deriving Repr, DecidableEq

/-- The mutable state of a Host instance: the pending-argument queue
`_arguments`, the insertion-ordered observer registry `_observers`
(callback identities and their extra parameters are opaque, modelled as
naturals), the `_clients` counter, the `_listening` flag, and whether
the `_timer` is still pending. -/
structure HostState where
  arguments : List (List PyStr)
  observers : List (Nat × Nat)
  clients : Nat
  listening : Bool
  timerActive : Bool
deriving Repr, DecidableEq

/-- The behaviour of observer callbacks, indexed by callback identity:
invoked on an argument set, a callback either raises an exception
(`Except.error`) — which `_update_observers` catches — or returns
normally, possibly having called `untrace` on some keys meanwhile. -/
abbrev ObsBeh := Nat → List PyStr → Except String (List Nat)

/-- Observers that neither raise nor unregister anything. -/
def behPure : ObsBeh := fun _ _ => Except.ok []

/-- `trace(observer, *args, **kwargs)` (line 345): an upsert keyed by
callback identity; re-registering replaces the stored extras in place
(Python dict assignment keeps the key's insertion position). -/
def traceObs (key extra : Nat) (obs : List (Nat × Nat)) : List (Nat × Nat) :=
  if obs.any (fun p => p.1 == key) then
    obs.map (fun p => if p.1 = key then (key, extra) else p)
  else
    obs ++ [(key, extra)]

/-- `untrace(observer)` (line 350): `self._observers.pop(observer, None)`,
a no-op when the key is absent. -/
def untraceKey (key : Nat) (obs : List (Nat × Nat)) : List (Nat × Nat) :=
  obs.filter (fun p => p.1 ≠ key)

/-! ## Lifecycle: `release` -/

/-- The four side effects of an effective `release()` call, in the order
the source performs them (lines 364–385). -/
inductive ReleaseEffect where
  | setNotListening
  | cancelTimer
  | clearObservers
  | wake
deriving Repr, DecidableEq

/-- The loopback self-connection that unblocks the server's `accept`
(lines 376–385).  Its own connect/send failure (`OSError`,
`ConnectionRefusedError`) is caught and swallowed, so the operation
always returns normally. -/
def wakeAccept (wakeFails : Bool) : Except String Unit :=
  match (if wakeFails then Except.error "OSError" else Except.ok () : Except String Unit) with
  | Except.ok u => Except.ok u
  | Except.error _ => Except.ok ()

/-- `release()` (lines 352–385).  When not listening, return at once
(idempotence guard).  Otherwise, in order: flip `_listening` to false,
cancel the timer, clear all observers, and attempt the wake connection
(whose failure, `wakeFails`, is swallowed by `wakeAccept`).  The pair
returned is the new state and the list of performed effects. -/
def release (wakeFails : Bool) (s : HostState) : HostState × List ReleaseEffect :=
  if ¬ s.listening then (s, [])
  else
    match wakeAccept wakeFails with
    | Except.ok _ =>
      ({ s with listening := false, timerActive := false, observers := [] },
       [ReleaseEffect.setNotListening, ReleaseEffect.cancelTimer,
        ReleaseEffect.clearObservers, ReleaseEffect.wake])
    | Except.error _ =>
      -- Unreachable: wakeAccept swallows the failure.
      ({ s with listening := false, timerActive := false, observers := [] },
       [ReleaseEffect.setNotListening, ReleaseEffect.cancelTimer,
        ReleaseEffect.clearObservers, ReleaseEffect.wake])

/-! ## Observer publication -/

/-- One publish pass over a snapshot of the registry
(`_update_observers`, lines 302–320): each snapshot entry is invoked
with the argument set and its stored extras (recorded in the returned
invocation log as `(key, args, extra)`); an invocation may `untrace`
keys from the live registry, and an exception it raises is caught, so
iteration always continues with the next snapshot entry. -/
def runObsSnapshot (beh : ObsBeh) (args : List PyStr) :
    List (Nat × Nat) → List (Nat × Nat) → List (Nat × Nat) × List (Nat × List PyStr × Nat)
  | [], live => (live, [])
  | (k, extra) :: rest, live =>
    let live' :=
      match beh k args with
      | Except.ok removes => removes.foldl (fun acc key => untraceKey key acc) live
      | Except.error _ => live
    let out := runObsSnapshot beh args rest live'
    (out.1, (k, args, extra) :: out.2)

/-- `_update_observers` (lines 283–320): return unchanged when the
argument queue or the registry is empty; otherwise pop the most recent
argument set (`list.pop()` removes the last element), snapshot the
registry (`list(self._observers.items())`) and publish to every
snapshot entry.  Returns the new state, the published argument sets
(here none or exactly one) and the invocation log. -/
def updateObservers (beh : ObsBeh) (s : HostState) :
    HostState × List (List PyStr) × List (Nat × List PyStr × Nat) :=
  if s.arguments = [] ∨ s.observers = [] then (s, [], [])
  else
    match s.arguments.getLast? with
    | none => (s, [], [])
    | some args =>
      let out := runObsSnapshot beh args s.observers s.observers
      ({ s with arguments := s.arguments.dropLast, observers := out.1 },
       [args], out.2)

/-! ## The accept-loop body -/

/-- The outcome of one iteration of the accept loop: the new state, the
argument sets published during the iteration, the observer-invocation
log, and whether the loop exited via `break`. -/
structure StepOut where
  state : HostState
  delivered : List (List PyStr)
  invocations : List (Nat × List PyStr × Nat)
  exited : Bool
deriving Repr, DecidableEq

/-- The body of the accept loop for one accepted connection
(`_create_server`, lines 180–232), with `data` the connection's decoded
payload.  In source order: increment `_clients`; when the release
threshold is set and reached, `release()` and `break`; otherwise compute
`should_process_args` (within `max_clients` and at least one observer)
and, when it holds, decode the payload, verify the secret (`continue`
on mismatch), drop empty segments and — when non-empty — append the
argument set and publish it to the observers. -/
def serverStep (beh : ObsBeh) (cfg : Config) (s : HostState) (data : PyStr) : StepOut :=
  let s1 : HostState := { s with clients := s.clients + 1 }
  if cfg.release_threshold ≠ 0 ∧ cfg.release_threshold ≤ s1.clients then
    { state := (release false s1).1, delivered := [], invocations := [], exited := true }
  else
    let within_max_clients : Prop := cfg.max_clients = 0 ∨ s1.clients ≤ cfg.max_clients
    let has_observers : Prop := s1.observers ≠ []
    if within_max_clients ∧ has_observers then
      match hostExtractArgs cfg.secret data with
      | none =>
        { state := s1, delivered := [], invocations := [], exited := false }
      | some args =>
        if args ≠ [] then
          let s2 : HostState := { s1 with arguments := s1.arguments ++ [args] }
          let out := updateObservers beh s2
          { state := out.1, delivered := out.2.1, invocations := out.2.2, exited := false }
        else
          { state := s1, delivered := [], invocations := [], exited := false }
    else
      { state := s1, delivered := [], invocations := [], exited := false }

/-- A sequential run of the accept loop over a list of incoming
connection payloads: the `while self._listening` guard is checked before
each accept, and a `break` (release threshold) ends the run.  Returns
the final state and the concatenated list of published argument sets. -/
def runServer (beh : ObsBeh) (cfg : Config) : HostState → List PyStr → HostState × List (List PyStr)
  | s, [] => (s, [])
  | s, d :: ds =>
    if ¬ s.listening then (s, [])
    else
      let out := serverStep beh cfg s d
      if out.exited then (out.state, out.delivered)
      else
        let r := runServer beh cfg out.state ds
        (r.1, out.delivered ++ r.2)

/-! ## Construction: validation and role decision -/

/-- The parameter validation `__init__` performs before creating any
socket (lines 77–84).  Note that the `address` parameter is *not*
inspected: only the port range and the non-negativity of `timeout`,
`release_threshold` and `max_clients` are checked. -/
def validateParams (address : String) (port timeout release_threshold max_clients : Int) :
    Except String Unit :=
  if ¬ (0 ≤ port ∧ port ≤ 65535) then
    Except.error "port must be between 0 and 65535 (inclusive)"
  else if timeout < 0 then
    Except.error "timeout must be greater than or equal to 0"
  else if release_threshold < 0 then
    Except.error "release_threshold must be greater than or equal to 0"
  else if max_clients < 0 then
    Except.error "max_clients must be greater than or equal to 0"
  else
    Except.ok ()

/-- The Windows address-in-use error code `_WSAEADDRINUSE` (line 6). -/
def WSAEADDRINUSE : Int := 10048

/-- The message of `MultipleSingletonsError` (lines 110–114). -/
def multipleSingletonsMessage (address : String) (port : Nat) : String :=
  "\nApplication is already bound & listening @ " ++ address ++ " on port "
    ++ toString port
    ++ ". Multiple instances are disallowed in the current context."

/-- The result of the bind attempt in `__init__` (line 98). -/
inductive BindOutcome where
  | bound
  | oserror (errno : Int)
deriving Repr, DecidableEq

/-- What construction raises, if anything. -/
inductive InitError where
  | osError (errno : Int)
  | systemExit
  | multipleSingletons (msg : String)
deriving Repr, DecidableEq

/-- The observable outcome of construction. -/
inductive InitResult where
  | host
  | raised (err : InitError)
deriving Repr, DecidableEq

/-- The role decision of `__init__` (lines 97–123), parameterised by the
platform's `errno.EADDRINUSE` value.  On bind success the instance is
the host.  On an `OSError` whose errno is neither `EADDRINUSE` nor
`_WSAEADDRINUSE` the error propagates unchanged.  Otherwise the instance
is a client: it forwards its arguments iff `self.client` (the returned
boolean records whether `_create_client` ran), then raises `SystemExit`
when `strict`, else `MultipleSingletonsError` with the address/port
message. -/
def roleDecision (eaddrinuse : Int) (cfg : Config) (bind : BindOutcome) : InitResult × Bool :=
  match bind with
  | BindOutcome.bound => (InitResult.host, false)
  | BindOutcome.oserror e =>
    if ¬ (e = eaddrinuse ∨ e = WSAEADDRINUSE) then
      (InitResult.raised (InitError.osError e), false)
    else
      let sent := cfg.client
      if cfg.strict then
        (InitResult.raised InitError.systemExit, sent)
      else
        (InitResult.raised
          (InitError.multipleSingletons (multipleSingletonsMessage cfg.address cfg.port)), sent)

/-! ## Codec lemmas -/

theorem rstripNul_append_nul (s : PyStr) : rstripNul (s ++ [NUL]) = rstripNul s := by
  induction s with
  | nil => rfl
  | cons c cs ih => simp only [List.cons_append, rstripNul, List.append_eq, ih]

theorem rstripNul_of_not_mem (s : PyStr) (h : NUL ∉ s) : rstripNul s = s := by
  induction s with
  | nil => rfl
  | cons c cs ih =>
    have hc : c ≠ NUL := fun hc => h (by simp [hc])
    have hcs : NUL ∉ cs := fun hm => h (by simp [hm])
    simp only [rstripNul, ih hcs]
    cases cs with
    | nil => simp [hc]
    | cons d ds => rfl

theorem rstripNul_append_of_ne (s t : PyStr) (ht : rstripNul t = t) (hne : t ≠ []) :
    rstripNul (s ++ t) = s ++ t := by
  induction s with
  | nil => simpa using ht
  | cons c cs ih =>
    simp only [List.cons_append, rstripNul, List.append_eq, ih]
    cases hcs : cs ++ t with
    | nil => exact absurd (List.append_eq_nil.mp hcs).2 hne
    | cons d ds => rfl

theorem splitNul_of_not_mem (a : PyStr) (h : NUL ∉ a) : splitNul a = [a] := by
  induction a with
  | nil => rfl
  | cons c cs ih =>
    have hc : c ≠ NUL := fun hc => h (by simp [hc])
    have hcs : NUL ∉ cs := fun hm => h (by simp [hm])
    simp [splitNul, hc, ih hcs]

theorem splitNul_append_nul_cons (a t : PyStr) (h : NUL ∉ a) :
    splitNul (a ++ NUL :: t) = a :: splitNul t := by
  induction a with
  | nil => simp [splitNul]
  | cons c cs ih =>
    have hc : c ≠ NUL := fun hc => h (by simp [hc])
    have hcs : NUL ∉ cs := fun hm => h (by simp [hm])
    simp [splitNul, hc, ih hcs]

theorem joinNul_cons_ne_nil (a : PyStr) (rest : List PyStr) (ha : a ≠ []) :
    joinNul (a :: rest) ≠ [] := by
  cases rest with
  | nil => simpa [joinNul] using ha
  | cons b r => simp [joinNul]

theorem rstripNul_joinNul : ∀ (A : List PyStr), (∀ a ∈ A, a ≠ [] ∧ NUL ∉ a) → A ≠ [] →
    rstripNul (joinNul A) = joinNul A
  | [], _, hA => absurd rfl hA
  | [a], h, _ => by simpa [joinNul] using rstripNul_of_not_mem a (h a (by simp)).2
  | a :: b :: r, h, _ => by
    have hb : joinNul (b :: r) ≠ [] := joinNul_cons_ne_nil b r (h b (by simp)).1
    have hrec : rstripNul (joinNul (b :: r)) = joinNul (b :: r) :=
      rstripNul_joinNul (b :: r) (fun x hx => h x (List.mem_cons_of_mem _ hx)) (by simp)
    have ht : rstripNul (NUL :: joinNul (b :: r)) = NUL :: joinNul (b :: r) := by
      simp only [rstripNul, hrec]
    simpa [joinNul] using
      rstripNul_append_of_ne a (NUL :: joinNul (b :: r)) ht (by simp)

theorem splitNul_joinNul : ∀ (A : List PyStr), (∀ a ∈ A, NUL ∉ a) → A ≠ [] →
    splitNul (joinNul A) = A
  | [], _, hA => absurd rfl hA
  | [a], h, _ => by simpa [joinNul] using splitNul_of_not_mem a (h a (by simp))
  | a :: b :: r, h, _ => by
    have hrec : splitNul (joinNul (b :: r)) = b :: r :=
      splitNul_joinNul (b :: r) (fun x hx => h x (List.mem_cons_of_mem _ hx)) (by simp)
    have hsplit := splitNul_append_nul_cons a (joinNul (b :: r)) (h a (by simp))
    calc splitNul (joinNul (a :: b :: r))
        = splitNul (a ++ NUL :: joinNul (b :: r)) := by simp [joinNul]
      _ = a :: splitNul (joinNul (b :: r)) := hsplit
      _ = a :: b :: r := by rw [hrec]

theorem dropEmpty_eq_self (A : List PyStr) (h : ∀ a ∈ A, a ≠ []) : dropEmpty A = A := by
  induction A with
  | nil => rfl
  | cons a rest ih =>
    have ha : (!a.isEmpty) = true := by
      cases a with
      | nil => exact absurd rfl (h [] (by simp))
      | cons c cs => rfl
    have hrest : dropEmpty rest = rest := ih (fun x hx => h x (by simp [hx]))
    have hstep : dropEmpty (a :: rest) = a :: dropEmpty rest := by
      simp only [dropEmpty, List.filter_cons, ha, if_true]
    rw [hstep, hrest]

theorem hostExtract_encode_none (A : List PyStr) (h : ∀ a ∈ A, a ≠ [] ∧ NUL ∉ a) :
    hostExtractArgs none (encodeMessage none A) = some A := by
  cases A with
  | nil => rfl
  | cons a rest =>
    have hparts : decodeParts (encodeMessage none (a :: rest)) = a :: rest := by
      show splitNul (rstripNul (joinNul (a :: rest) ++ [NUL])) = a :: rest
      rw [rstripNul_append_nul, rstripNul_joinNul _ h (by simp),
          splitNul_joinNul _ (fun x hx => (h x hx).2) (by simp)]
    simp [hostExtractArgs, hparts, dropEmpty_eq_self _ (fun x hx => (h x hx).1)]

theorem hostExtract_encode_some (S : PyStr) (A : List PyStr) (hS : S ≠ []) (hSn : NUL ∉ S)
    (h : ∀ a ∈ A, a ≠ [] ∧ NUL ∉ a) :
    hostExtractArgs (some S) (encodeMessage (some S) A) = some A := by
  have hall : ∀ a ∈ S :: A, a ≠ [] ∧ NUL ∉ a := by
    intro x hx
    rcases List.mem_cons.mp hx with h1 | h2
    · subst h1; exact ⟨hS, hSn⟩
    · exact h x h2
  have hparts : decodeParts (encodeMessage (some S) A) = S :: A := by
    show splitNul (rstripNul (joinNul (S :: A) ++ [NUL])) = S :: A
    rw [rstripNul_append_nul, rstripNul_joinNul _ hall (by simp),
        splitNul_joinNul _ (fun x hx => (hall x hx).2) (by simp)]
  simp [hostExtractArgs, hparts, dropEmpty_eq_self _ (fun x hx => (h x hx).1)]

/-! ## Observer-publication lemmas -/

theorem runObsSnapshot_log (beh : ObsBeh) (args : List PyStr) :
    ∀ (snap live : List (Nat × Nat)),
      (runObsSnapshot beh args snap live).2 = snap.map (fun p => (p.1, args, p.2))
  | [], _ => rfl
  | (k, extra) :: rest, live => by
    simp only [runObsSnapshot, List.map_cons]
    exact congrArg _ (runObsSnapshot_log beh args rest _)

theorem runObsSnapshot_behPure_live (args : List PyStr) :
    ∀ (snap live : List (Nat × Nat)), (runObsSnapshot behPure args snap live).1 = live
  | [], _ => rfl
  | (k, extra) :: rest, live => by
    simp only [runObsSnapshot, behPure, List.foldl_nil]
    exact runObsSnapshot_behPure_live args rest live

theorem updateObservers_concat (beh : ObsBeh) (args : List PyStr) (A : List (List PyStr))
    (obs : List (Nat × Nat)) (c : Nat) (l t : Bool) (hobs : obs ≠ []) :
    updateObservers beh ⟨A ++ [args], obs, c, l, t⟩ =
      (⟨A, (runObsSnapshot beh args obs obs).1, c, l, t⟩, [args],
       obs.map (fun p => (p.1, args, p.2))) := by
  have hne : ¬ (A ++ [args] = [] ∨ obs = []) := by simp [hobs]
  simp only [updateObservers, hne, if_false, List.getLast?_concat, List.dropLast_concat,
    runObsSnapshot_log]

/-! ## Release and step characterisation lemmas -/

theorem wakeAccept_ok (b : Bool) : wakeAccept b = Except.ok () := by
  cases b <;> rfl

theorem release_eq (b : Bool) (s : HostState) :
    release b s =
      if s.listening then
        ({ s with listening := false, timerActive := false, observers := [] },
         [ReleaseEffect.setNotListening, ReleaseEffect.cancelTimer,
          ReleaseEffect.clearObservers, ReleaseEffect.wake])
      else (s, []) := by
  cases hl : s.listening <;> simp [release, wakeAccept_ok, hl]

theorem serverStep_release (beh : ObsBeh) (cfg : Config) (s : HostState) (data : PyStr)
    (hK : cfg.release_threshold ≠ 0) (hreach : cfg.release_threshold ≤ s.clients + 1) :
    serverStep beh cfg s data =
      { state := (release false { s with clients := s.clients + 1 }).1,
        delivered := [], invocations := [], exited := true } := by
  simp only [serverStep]
  rw [if_pos ⟨hK, hreach⟩]

theorem serverStep_noProcess (beh : ObsBeh) (cfg : Config) (s : HostState) (data : PyStr)
    (hnoK : ¬ (cfg.release_threshold ≠ 0 ∧ cfg.release_threshold ≤ s.clients + 1))
    (hnp : ¬ ((cfg.max_clients = 0 ∨ s.clients + 1 ≤ cfg.max_clients) ∧ s.observers ≠ [])) :
    serverStep beh cfg s data =
      { state := { s with clients := s.clients + 1 },
        delivered := [], invocations := [], exited := false } := by
  simp only [serverStep]
  rw [if_neg hnoK, if_neg hnp]

theorem serverStep_noYield (beh : ObsBeh) (cfg : Config) (s : HostState) (data : PyStr)
    (hnoK : ¬ (cfg.release_threshold ≠ 0 ∧ cfg.release_threshold ≤ s.clients + 1))
    (hp : (cfg.max_clients = 0 ∨ s.clients + 1 ≤ cfg.max_clients) ∧ s.observers ≠ [])
    (hnone : hostExtractArgs cfg.secret data = none) :
    serverStep beh cfg s data =
      { state := { s with clients := s.clients + 1 },
        delivered := [], invocations := [], exited := false } := by
  simp only [serverStep]
  rw [if_neg hnoK, if_pos hp, hnone]

theorem serverStep_emptyArgs (beh : ObsBeh) (cfg : Config) (s : HostState) (data : PyStr)
    (hnoK : ¬ (cfg.release_threshold ≠ 0 ∧ cfg.release_threshold ≤ s.clients + 1))
    (hp : (cfg.max_clients = 0 ∨ s.clients + 1 ≤ cfg.max_clients) ∧ s.observers ≠ [])
    (hsome : hostExtractArgs cfg.secret data = some []) :
    serverStep beh cfg s data =
      { state := { s with clients := s.clients + 1 },
        delivered := [], invocations := [], exited := false } := by
  simp only [serverStep]
  rw [if_neg hnoK, if_pos hp, hsome]
  simp

theorem serverStep_yield (beh : ObsBeh) (cfg : Config) (s : HostState) (data : PyStr)
    (args : List PyStr)
    (hnoK : ¬ (cfg.release_threshold ≠ 0 ∧ cfg.release_threshold ≤ s.clients + 1))
    (hp : (cfg.max_clients = 0 ∨ s.clients + 1 ≤ cfg.max_clients) ∧ s.observers ≠ [])
    (hsome : hostExtractArgs cfg.secret data = some args) (hne : args ≠ []) :
    serverStep beh cfg s data =
      { state := ⟨s.arguments, (runObsSnapshot beh args s.observers s.observers).1,
                  s.clients + 1, s.listening, s.timerActive⟩,
        delivered := [args],
        invocations := s.observers.map (fun p => (p.1, args, p.2)),
        exited := false } := by
  simp only [serverStep]
  rw [if_neg hnoK, if_pos hp, hsome]
  simp only [hne, if_true, ne_eq, not_false_iff, if_pos]
  rw [show ({ s with clients := s.clients + 1 } : HostState).arguments = s.arguments from rfl]
  rw [updateObservers_concat beh args s.arguments s.observers (s.clients + 1)
        s.listening s.timerActive hp.2]

theorem serverStep_nonrelease_fields (beh : ObsBeh) (cfg : Config) (s : HostState)
    (data : PyStr)
    (hnoK : ¬ (cfg.release_threshold ≠ 0 ∧ cfg.release_threshold ≤ s.clients + 1)) :
    (serverStep beh cfg s data).exited = false ∧
    (serverStep beh cfg s data).state.clients = s.clients + 1 ∧
    (serverStep beh cfg s data).state.listening = s.listening ∧
    (serverStep beh cfg s data).state.arguments = s.arguments ∧
    (serverStep beh cfg s data).state.timerActive = s.timerActive := by
  by_cases hp : (cfg.max_clients = 0 ∨ s.clients + 1 ≤ cfg.max_clients) ∧ s.observers ≠ []
  · cases hx : hostExtractArgs cfg.secret data with
    | none => rw [serverStep_noYield beh cfg s data hnoK hp hx]; exact ⟨rfl, rfl, rfl, rfl, rfl⟩
    | some args =>
      by_cases hne : args = []
      · subst hne
        rw [serverStep_emptyArgs beh cfg s data hnoK hp hx]
        exact ⟨rfl, rfl, rfl, rfl, rfl⟩
      · rw [serverStep_yield beh cfg s data args hnoK hp hx hne]
        exact ⟨rfl, rfl, rfl, rfl, rfl⟩
  · rw [serverStep_noProcess beh cfg s data hnoK hp]
    exact ⟨rfl, rfl, rfl, rfl, rfl⟩

theorem serverStep_clients (beh : ObsBeh) (cfg : Config) (s : HostState) (data : PyStr) :
    (serverStep beh cfg s data).state.clients = s.clients + 1 := by
  by_cases hK : cfg.release_threshold ≠ 0 ∧ cfg.release_threshold ≤ s.clients + 1
  · rw [serverStep_release beh cfg s data hK.1 hK.2, release_eq]
    split <;> rfl
  · exact (serverStep_nonrelease_fields beh cfg s data hK).2.1

theorem runServer_clients_mono (beh : ObsBeh) (cfg : Config) :
    ∀ (ds : List PyStr) (s : HostState), s.clients ≤ (runServer beh cfg s ds).1.clients
  | [], s => le_refl _
  | d :: ds, s => by
    rw [runServer]
    by_cases hl : ¬ s.listening
    · rw [if_pos hl]
    · rw [if_neg hl]
      have hstep : (serverStep beh cfg s d).state.clients = s.clients + 1 :=
        serverStep_clients beh cfg s d
      by_cases he : (serverStep beh cfg s d).exited = true
      · rw [if_pos he]
        dsimp only
        omega
      · rw [if_neg he]
        dsimp only
        have hr := runServer_clients_mono beh cfg ds (serverStep beh cfg s d).state
        omega

theorem serverStep_count (cfg : Config) (s : HostState) (data : PyStr)
    (hrt : cfg.release_threshold = 0) (hobs : s.observers ≠ [])
    (hyield : messageYieldsArgs cfg.secret data = true) :
    ((serverStep behPure cfg s data).delivered.length =
       if cfg.max_clients = 0 ∨ s.clients + 1 ≤ cfg.max_clients then 1 else 0) ∧
    (serverStep behPure cfg s data).state.arguments = s.arguments ∧
    (serverStep behPure cfg s data).state.observers = s.observers ∧
    (serverStep behPure cfg s data).state.clients = s.clients + 1 ∧
    (serverStep behPure cfg s data).state.listening = s.listening ∧
    (serverStep behPure cfg s data).exited = false := by
  have hnoK : ¬ (cfg.release_threshold ≠ 0 ∧ cfg.release_threshold ≤ s.clients + 1) := by
    simp [hrt]
  obtain ⟨args, hx, hne⟩ :
      ∃ args, hostExtractArgs cfg.secret data = some args ∧ args ≠ [] := by
    unfold messageYieldsArgs at hyield
    cases hxx : hostExtractArgs cfg.secret data with
    | none => rw [hxx] at hyield; exact absurd hyield (by simp)
    | some a =>
      refine ⟨a, rfl, ?_⟩
      rw [hxx] at hyield
      simpa [List.isEmpty_iff] using hyield
  by_cases hw : cfg.max_clients = 0 ∨ s.clients + 1 ≤ cfg.max_clients
  · rw [serverStep_yield behPure cfg s data args hnoK ⟨hw, hobs⟩ hx hne]
    simp [hw, runObsSnapshot_behPure_live]
  · rw [serverStep_noProcess behPure cfg s data hnoK (fun h => hw h.1)]
    simp [hw]

theorem runServer_maxClients (cfg : Config) (hrt : cfg.release_threshold = 0)
    (hM : cfg.max_clients ≠ 0) :
    ∀ (ds : List PyStr) (s : HostState),
      (∀ d ∈ ds, messageYieldsArgs cfg.secret d = true) →
      s.listening = true → s.observers ≠ [] →
      (runServer behPure cfg s ds).2.length
          = min cfg.max_clients (s.clients + ds.length) - min cfg.max_clients s.clients
        ∧ (runServer behPure cfg s ds).1.clients = s.clients + ds.length
        ∧ (runServer behPure cfg s ds).1.listening = true
        ∧ (runServer behPure cfg s ds).1.observers = s.observers
        ∧ (runServer behPure cfg s ds).1.arguments = s.arguments
  | [], s => by
    intro _ hl hobs
    refine ⟨by simp [runServer], by simp [runServer], by simp [runServer, hl],
      by simp [runServer], by simp [runServer]⟩
  | d :: ds, s => by
    intro hall hl hobs
    obtain ⟨hlen, hargs, hobs2, hcl, hlis, hex⟩ :=
      serverStep_count cfg s d hrt hobs (hall d (by simp))
    obtain ⟨rlen, rcl, rlis, robs, rargs⟩ :=
      runServer_maxClients cfg hrt hM ds (serverStep behPure cfg s d).state
        (fun x hx => hall x (by simp [hx])) (by rw [hlis, hl]) (by rw [hobs2]; exact hobs)
    rw [runServer, if_neg (by simp [hl]), if_neg (by simp [hex])]
    dsimp only
    refine ⟨?_, ?_, ?_, ?_, ?_⟩
    · rw [List.length_append, hlen, rlen, hcl]
      by_cases hw : cfg.max_clients = 0 ∨ s.clients + 1 ≤ cfg.max_clients
      · rw [if_pos hw]
        rcases hw with hw | hw
        · exact absurd hw hM
        · simp only [List.length_cons]
          omega
      · rw [if_neg hw]
        push_neg at hw
        simp only [List.length_cons]
        omega
    · rw [rcl, hcl]
      simp only [List.length_cons]
      omega
    · exact rlis
    · rw [robs, hobs2]
    · rw [rargs, hargs]

theorem runServer_releaseThreshold (beh : ObsBeh) (cfg : Config)
    (hK : cfg.release_threshold ≠ 0) :
    ∀ (ds : List PyStr) (s : HostState),
      s.listening = true →
      s.clients + ds.length = cfg.release_threshold →
      ds ≠ [] →
      (runServer beh cfg s ds).1.listening = false ∧
      (runServer beh cfg s ds).1.clients = cfg.release_threshold
  | [], s => by
    intro _ _ hne
    exact absurd rfl hne
  | d :: ds, s => by
    intro hl hsum _
    rw [runServer, if_neg (by simp [hl])]
    by_cases hreach : cfg.release_threshold ≤ s.clients + 1
    · rw [serverStep_release beh cfg s d hK hreach]
      dsimp only
      rw [if_pos rfl, release_eq]
      have : ({ s with clients := s.clients + 1 } : HostState).listening = true := hl
      rw [this, if_pos rfl]
      simp only [List.length_cons] at hsum
      exact ⟨rfl, by dsimp only; omega⟩
    · obtain ⟨hex, hcl, hlis, _, _⟩ :=
        serverStep_nonrelease_fields beh cfg s d (fun h => hreach h.2)
      rw [if_neg (by simp [hex])]
      dsimp only
      refine runServer_releaseThreshold beh cfg hK ds (serverStep beh cfg s d).state
        (by rw [hlis, hl]) ?_ ?_
      · rw [hcl]
        simp only [List.length_cons] at hsum
        omega
      · intro h
        subst h
        simp only [List.length_cons, List.length_nil] at hsum
        omega

/-! ## Claim theorems -/

/-- C1: when a bind fails because the endpoint is already in use
(errno is `EADDRINUSE` or `_WSAEADDRINUSE`), the instance takes the
client role: it forwards its arguments exactly when the `client` flag is
set (second component), then raises `SystemExit` when `strict` is true,
and otherwise raises the catchable `MultipleSingletonsError` whose
message carries the address and the port; a bind failure with any other
errno propagates unchanged as that `OSError` and is never treated as
already-running. -/
theorem role_decision_spec (eaddr : Int) (cfg : Config) (e : Int) :
    (¬ (e = eaddr ∨ e = WSAEADDRINUSE) →
       roleDecision eaddr cfg (BindOutcome.oserror e) =
         (InitResult.raised (InitError.osError e), false)) ∧
    ((e = eaddr ∨ e = WSAEADDRINUSE) →
       (cfg.strict = true →
          roleDecision eaddr cfg (BindOutcome.oserror e) =
            (InitResult.raised InitError.systemExit, cfg.client)) ∧
       (cfg.strict = false →
          ∃ pre mid post,
            roleDecision eaddr cfg (BindOutcome.oserror e) =
              (InitResult.raised (InitError.multipleSingletons
                 (pre ++ cfg.address ++ mid ++ toString cfg.port ++ post)),
               cfg.client))) := by
  refine ⟨fun h => ?_, fun h => ⟨fun hs => ?_, fun hs => ?_⟩⟩
  · simp [roleDecision, h]
  · simp [roleDecision, h, hs]
  · refine ⟨"\nApplication is already bound & listening @ ", " on port ",
      ". Multiple instances are disallowed in the current context.", ?_⟩
    simp [roleDecision, h, hs, multipleSingletonsMessage]

/-- Witness for C1 at a concrete configuration (Linux `EADDRINUSE` = 98):
a propagated foreign errno, the strict exit, and the non-strict error. -/
theorem role_decision_spec_witness :
    (¬ ((13 : Int) = 98 ∨ (13 : Int) = WSAEADDRINUSE) →
       roleDecision 98 ⟨"127.0.0.1", 1337, 0, true, true, 0, 0, false, none⟩
           (BindOutcome.oserror 13) =
         (InitResult.raised (InitError.osError 13), false)) ∧
    roleDecision 98 ⟨"127.0.0.1", 1337, 0, true, true, 0, 0, false, none⟩
        (BindOutcome.oserror 98) =
      (InitResult.raised InitError.systemExit, true) ∧
    ∃ pre mid post,
      roleDecision 98 ⟨"127.0.0.1", 1337, 0, true, false, 0, 0, false, none⟩
          (BindOutcome.oserror 98) =
        (InitResult.raised (InitError.multipleSingletons
           (pre ++ "127.0.0.1" ++ mid ++ toString (1337 : Nat) ++ post)), true) :=
  ⟨(role_decision_spec 98 ⟨"127.0.0.1", 1337, 0, true, true, 0, 0, false, none⟩ 13).1,
   ((role_decision_spec 98 ⟨"127.0.0.1", 1337, 0, true, true, 0, 0, false, none⟩ 98).2
      (Or.inl rfl)).1 rfl,
   ((role_decision_spec 98 ⟨"127.0.0.1", 1337, 0, true, false, 0, 0, false, none⟩ 98).2
      (Or.inl rfl)).2 rfl⟩

/-- C2 (counterexample): the round trip is not the identity on every
argument list — an argument that is the empty string is dropped by the
host's empty-segment filter, so `decode(encode([""])) = [] ≠ [""]`. -/
theorem codec_roundtrip_counterexample :
    hostExtractArgs none (encodeMessage none [([] : PyStr)]) = some [] ∧
    some ([] : List (List Char)) ≠ some [([] : PyStr)] :=
  ⟨by decide, by decide⟩

/-- C2 (amended): for every argument list whose elements are non-empty
and NUL-free (with a likewise NUL-free secret when one is configured),
client-side encoding followed by host-side decoding restores the list
exactly: `hostExtractArgs secret (encodeMessage secret A) = some A`.
This covers arguments containing embedded newline characters, since
newline is not the NUL delimiter. -/
theorem codec_roundtrip (secret : Option PyStr) (A : List PyStr)
    (hA : ∀ a ∈ A, a ≠ [] ∧ NUL ∉ a)
    (hsec : ∀ S, secret = some S → S ≠ [] ∧ NUL ∉ S) :
    hostExtractArgs secret (encodeMessage secret A) = some A := by
  cases secret with
  | none => exact hostExtract_encode_none A hA
  | some S => exact hostExtract_encode_some S A (hsec S rfl).1 (hsec S rfl).2 hA

/-- Witness for C2 on a concrete list with an embedded newline and a
configured secret. -/
theorem codec_roundtrip_witness :
    (∀ a ∈ [pyStr "foo", pyStr "a\nb"], a ≠ [] ∧ NUL ∉ a) ∧
    hostExtractArgs (some (pyStr "tok"))
        (encodeMessage (some (pyStr "tok")) [pyStr "foo", pyStr "a\nb"]) =
      some [pyStr "foo", pyStr "a\nb"] :=
  ⟨by decide,
   codec_roundtrip (some (pyStr "tok")) [pyStr "foo", pyStr "a\nb"] (by decide)
     (fun S hS => by cases hS; exact ⟨by decide, by decide⟩)⟩

/-- C6: `release` is idempotent and never raises.  A second call on an
already-released state is a no-op with no observable difference (same
state, no effects); the result never depends on whether the wake
connection's send fails (that failure is swallowed by `wakeAccept`,
which always returns `ok`); and an effective call performs, in order:
flip the listening flag to false, cancel the timer, clear all observers,
and wake the blocking accept. -/
theorem release_idempotent_spec (s : HostState) (b bPrime : Bool) :
    release bPrime (release b s).1 = ((release b s).1, []) ∧
    release b s = release bPrime s ∧
    wakeAccept b = Except.ok () ∧
    (s.listening = true →
      (release b s).2 = [ReleaseEffect.setNotListening, ReleaseEffect.cancelTimer,
        ReleaseEffect.clearObservers, ReleaseEffect.wake] ∧
      (release b s).1.listening = false ∧
      (release b s).1.timerActive = false ∧
      (release b s).1.observers = [] ∧
      (release b s).1.arguments = s.arguments ∧
      (release b s).1.clients = s.clients) := by
  cases hl : s.listening <;>
    simp [release_eq, wakeAccept_ok, hl]

/-- Witness for C6 at a concrete listening state. -/
theorem release_idempotent_spec_witness :
    (⟨[], [(0, 0)], 3, true, true⟩ : HostState).listening = true ∧
    release true (release false ⟨[], [(0, 0)], 3, true, true⟩).1 =
      ((release false ⟨[], [(0, 0)], 3, true, true⟩).1, []) ∧
    (release false (⟨[], [(0, 0)], 3, true, true⟩ : HostState)).2 =
      [ReleaseEffect.setNotListening, ReleaseEffect.cancelTimer,
       ReleaseEffect.clearObservers, ReleaseEffect.wake] :=
  ⟨rfl,
   (release_idempotent_spec ⟨[], [(0, 0)], 3, true, true⟩ false true).1,
   ((release_idempotent_spec ⟨[], [(0, 0)], 3, true, true⟩ false true).2.2.2 rfl).1⟩

/-- C7 (counterexample): construction performs no syntactic validation
of the address — `validateParams`, the complete pre-socket validation of
`__init__`, accepts a string that is not a valid host or IP exactly as
it accepts a well-formed one, instead of failing construction. -/
theorem address_validation_counterexample :
    validateParams "@@@ not a valid host or IP @@@" 1337 0 0 0 = Except.ok () ∧
    validateParams "@@@ not a valid host or IP @@@" 1337 0 0 0 =
      validateParams "127.0.0.1" 1337 0 0 0 :=
  ⟨rfl, rfl⟩

/-- C7 (amended): the validation run by construction before any socket
operation checks that the port lies in 0–65535 and that timeout,
release_threshold and max_clients are non-negative, failing immediately
with a descriptive error; the address is not validated at all (the
result is independent of it) — a malformed address instead surfaces
later, at bind time, as a propagated OSError. -/
theorem construction_validation (address otherAddress : String)
    (port timeout rt mc : Int) :
    (validateParams address port timeout rt mc =
       validateParams otherAddress port timeout rt mc) ∧
    (validateParams address port timeout rt mc = Except.ok () ↔
       (0 ≤ port ∧ port ≤ 65535) ∧ 0 ≤ timeout ∧ 0 ≤ rt ∧ 0 ≤ mc) ∧
    (¬ (0 ≤ port ∧ port ≤ 65535) →
       validateParams address port timeout rt mc =
         Except.error "port must be between 0 and 65535 (inclusive)") ∧
    ((0 ≤ port ∧ port ≤ 65535) → timeout < 0 →
       validateParams address port timeout rt mc =
         Except.error "timeout must be greater than or equal to 0") ∧
    ((0 ≤ port ∧ port ≤ 65535) → 0 ≤ timeout → rt < 0 →
       validateParams address port timeout rt mc =
         Except.error "release_threshold must be greater than or equal to 0") ∧
    ((0 ≤ port ∧ port ≤ 65535) → 0 ≤ timeout → 0 ≤ rt → mc < 0 →
       validateParams address port timeout rt mc =
         Except.error "max_clients must be greater than or equal to 0") := by
  unfold validateParams
  refine ⟨rfl, ?_, ?_, ?_, ?_, ?_⟩
  · constructor
    · intro h
      split_ifs at h with h1 h2 h3 h4
      all_goals first
        | exact Except.noConfusion h
        | omega
    · intro h
      rw [if_neg (by omega), if_neg (by omega), if_neg (by omega), if_neg (by omega)]
  · intro h
    rw [if_pos h]
  · intro h ht
    rw [if_neg (by simpa using h), if_pos ht]
  · intro h ht hr
    rw [if_neg (by simpa using h), if_neg (by omega), if_pos hr]
  · intro h ht hr hm
    rw [if_neg (by simpa using h), if_neg (by omega), if_neg (by omega), if_pos hm]

/-- Witness for C7 at concrete parameter values: a valid set passes, a
negative timeout fails with its message. -/
theorem construction_validation_witness :
    validateParams "127.0.0.1" 1337 0 0 0 = Except.ok () ∧
    validateParams "127.0.0.1" 1337 (-1) 0 0 =
      Except.error "timeout must be greater than or equal to 0" :=
  ⟨(construction_validation "127.0.0.1" "0.0.0.0" 1337 0 0 0).2.1.mpr
     (by norm_num),
   (construction_validation "127.0.0.1" "0.0.0.0" 1337 (-1) 0 0).2.2.2.1
     (by norm_num) (by norm_num)⟩

/-- C3: with a secret configured on the host, a connection whose first
decoded segment equals the secret has its remaining segments delivered
exactly as the argument set, while a connection whose first segment is
any other string (or that omits the secret) is discarded: nothing is
delivered, no observer is invoked, the pending queue, the listening flag
and the observer registry are untouched, and in both cases the client
counter increments by exactly one. -/
theorem secret_verification (beh : ObsBeh) (cfg : Config) (s : HostState)
    (S : PyStr) (A : List PyStr) (dataBad : PyStr)
    (hsec : cfg.secret = some S) (hrt : cfg.release_threshold = 0)
    (hS : S ≠ []) (hSn : NUL ∉ S)
    (hA : ∀ a ∈ A, a ≠ [] ∧ NUL ∉ a) (hAne : A ≠ [])
    (hwithin : cfg.max_clients = 0 ∨ s.clients + 1 ≤ cfg.max_clients)
    (hobs : s.observers ≠ [])
    (hbad : (decodeParts dataBad).head? ≠ some S) :
    ((serverStep beh cfg s (encodeMessage (some S) A)).delivered = [A] ∧
     (serverStep beh cfg s (encodeMessage (some S) A)).state.clients = s.clients + 1) ∧
    ((serverStep beh cfg s dataBad).delivered = [] ∧
     (serverStep beh cfg s dataBad).invocations = [] ∧
     (serverStep beh cfg s dataBad).state.arguments = s.arguments ∧
     (serverStep beh cfg s dataBad).state.listening = s.listening ∧
     (serverStep beh cfg s dataBad).state.observers = s.observers ∧
     (serverStep beh cfg s dataBad).state.clients = s.clients + 1) := by
  have hnoK : ¬ (cfg.release_threshold ≠ 0 ∧ cfg.release_threshold ≤ s.clients + 1) := by
    simp [hrt]
  constructor
  · have hx : hostExtractArgs cfg.secret (encodeMessage (some S) A) = some A := by
      rw [hsec]
      exact hostExtract_encode_some S A hS hSn hA
    rw [serverStep_yield beh cfg s _ A hnoK ⟨hwithin, hobs⟩ hx hAne]
    exact ⟨rfl, rfl⟩
  · have hxbad : hostExtractArgs cfg.secret dataBad = none := by
      rw [hsec]
      simp only [hostExtractArgs]
      cases hp : decodeParts dataBad with
      | nil => rfl
      | cons p rest =>
        rw [hp] at hbad
        have hpS : p ≠ S := fun hcontr => hbad (by simp [hcontr])
        simp [hpS]
    rw [serverStep_noYield beh cfg s dataBad hnoK ⟨hwithin, hobs⟩ hxbad]
    exact ⟨rfl, rfl, rfl, rfl, rfl, rfl⟩

/-- Witness for C3: secret `"s"`, argument list `["a"]` delivered on a
match; a payload that omits the secret is discarded but still counted. -/
theorem secret_verification_witness :
    ((serverStep behPure ⟨"127.0.0.1", 1337, 0, true, true, 0, 0, false, some (pyStr "s")⟩
        ⟨[], [(0, 0)], 0, true, false⟩
        (encodeMessage (some (pyStr "s")) [pyStr "a"])).delivered = [[pyStr "a"]] ∧
     (serverStep behPure ⟨"127.0.0.1", 1337, 0, true, true, 0, 0, false, some (pyStr "s")⟩
        ⟨[], [(0, 0)], 0, true, false⟩
        (encodeMessage (some (pyStr "s")) [pyStr "a"])).state.clients = 0 + 1) ∧
    ((serverStep behPure ⟨"127.0.0.1", 1337, 0, true, true, 0, 0, false, some (pyStr "s")⟩
        ⟨[], [(0, 0)], 0, true, false⟩
        (encodeMessage none [pyStr "a"])).delivered = [] ∧
     (serverStep behPure ⟨"127.0.0.1", 1337, 0, true, true, 0, 0, false, some (pyStr "s")⟩
        ⟨[], [(0, 0)], 0, true, false⟩
        (encodeMessage none [pyStr "a"])).invocations = [] ∧
     (serverStep behPure ⟨"127.0.0.1", 1337, 0, true, true, 0, 0, false, some (pyStr "s")⟩
        ⟨[], [(0, 0)], 0, true, false⟩
        (encodeMessage none [pyStr "a"])).state.arguments = [] ∧
     (serverStep behPure ⟨"127.0.0.1", 1337, 0, true, true, 0, 0, false, some (pyStr "s")⟩
        ⟨[], [(0, 0)], 0, true, false⟩
        (encodeMessage none [pyStr "a"])).state.listening = true ∧
     (serverStep behPure ⟨"127.0.0.1", 1337, 0, true, true, 0, 0, false, some (pyStr "s")⟩
        ⟨[], [(0, 0)], 0, true, false⟩
        (encodeMessage none [pyStr "a"])).state.observers = [(0, 0)] ∧
     (serverStep behPure ⟨"127.0.0.1", 1337, 0, true, true, 0, 0, false, some (pyStr "s")⟩
        ⟨[], [(0, 0)], 0, true, false⟩
        (encodeMessage none [pyStr "a"])).state.clients = 0 + 1) :=
  secret_verification behPure _ ⟨[], [(0, 0)], 0, true, false⟩ (pyStr "s") [pyStr "a"]
    (encodeMessage none [pyStr "a"]) rfl rfl (by decide) (by decide) (by decide)
    (by decide) (Or.inl rfl) (by decide) (by decide)

/-- C4: the release-threshold check takes precedence over everything
that follows it in the loop body.  Per step: once the incremented
counter reaches the threshold, the step releases and exits — nothing is
delivered regardless of the payload or of `max_clients`, the listening
flag turns false, the observer registry is cleared and the counter still
increments.  Per run: starting from a listening state, the K-th accepted
connection leaves the host no longer listening with exactly K counted
clients, so the loop has exited and the endpoint is released. -/
theorem release_threshold_precedence (beh : ObsBeh) (cfg : Config)
    (hK : cfg.release_threshold ≠ 0) :
    (∀ (s : HostState) (data : PyStr),
       cfg.release_threshold ≤ s.clients + 1 → s.listening = true →
       (serverStep beh cfg s data).exited = true ∧
       (serverStep beh cfg s data).state.listening = false ∧
       (serverStep beh cfg s data).delivered = [] ∧
       (serverStep beh cfg s data).state.arguments = s.arguments ∧
       (serverStep beh cfg s data).state.observers = [] ∧
       (serverStep beh cfg s data).state.clients = s.clients + 1) ∧
    (∀ (s : HostState) (ds : List PyStr),
       s.listening = true → ds ≠ [] →
       s.clients + ds.length = cfg.release_threshold →
       (runServer beh cfg s ds).1.listening = false ∧
       (runServer beh cfg s ds).1.clients = cfg.release_threshold) := by
  constructor
  · intro s data hreach hl
    rw [serverStep_release beh cfg s data hK hreach, release_eq]
    have hsl : ({ s with clients := s.clients + 1 } : HostState).listening = true := hl
    rw [if_pos hsl]
    exact ⟨rfl, rfl, rfl, rfl, rfl, rfl⟩
  · intro s ds hl hne hsum
    exact runServer_releaseThreshold beh cfg hK ds s hl hsum hne

/-- Witness for C4 with threshold 2: the second client releases the
host; over a two-message run the final state is not listening and has
counted exactly 2 clients. -/
theorem release_threshold_precedence_witness :
    ((serverStep behPure ⟨"127.0.0.1", 1337, 0, true, true, 2, 0, false, none⟩
        ⟨[], [(0, 0)], 1, true, false⟩ (encodeMessage none [pyStr "x"])).exited = true ∧
     (serverStep behPure ⟨"127.0.0.1", 1337, 0, true, true, 2, 0, false, none⟩
        ⟨[], [(0, 0)], 1, true, false⟩
        (encodeMessage none [pyStr "x"])).state.listening = false ∧
     (serverStep behPure ⟨"127.0.0.1", 1337, 0, true, true, 2, 0, false, none⟩
        ⟨[], [(0, 0)], 1, true, false⟩ (encodeMessage none [pyStr "x"])).delivered = [] ∧
     (serverStep behPure ⟨"127.0.0.1", 1337, 0, true, true, 2, 0, false, none⟩
        ⟨[], [(0, 0)], 1, true, false⟩
        (encodeMessage none [pyStr "x"])).state.arguments = [] ∧
     (serverStep behPure ⟨"127.0.0.1", 1337, 0, true, true, 2, 0, false, none⟩
        ⟨[], [(0, 0)], 1, true, false⟩
        (encodeMessage none [pyStr "x"])).state.observers = [] ∧
     (serverStep behPure ⟨"127.0.0.1", 1337, 0, true, true, 2, 0, false, none⟩
        ⟨[], [(0, 0)], 1, true, false⟩
        (encodeMessage none [pyStr "x"])).state.clients = 1 + 1) ∧
    ((runServer behPure ⟨"127.0.0.1", 1337, 0, true, true, 2, 0, false, none⟩
        ⟨[], [(0, 0)], 0, true, false⟩
        [encodeMessage none [pyStr "x"], encodeMessage none [pyStr "y"]]).1.listening
          = false ∧
     (runServer behPure ⟨"127.0.0.1", 1337, 0, true, true, 2, 0, false, none⟩
        ⟨[], [(0, 0)], 0, true, false⟩
        [encodeMessage none [pyStr "x"], encodeMessage none [pyStr "y"]]).1.clients = 2) :=
  ⟨(release_threshold_precedence behPure
      ⟨"127.0.0.1", 1337, 0, true, true, 2, 0, false, none⟩ (by decide)).1
      ⟨[], [(0, 0)], 1, true, false⟩ (encodeMessage none [pyStr "x"]) (by decide) rfl,
   (release_threshold_precedence behPure
      ⟨"127.0.0.1", 1337, 0, true, true, 2, 0, false, none⟩ (by decide)).2
      ⟨[], [(0, 0)], 0, true, false⟩
      [encodeMessage none [pyStr "x"], encodeMessage none [pyStr "y"]] rfl
      (by decide) rfl⟩

/-- C5: with `release_threshold = 0` and `max_clients = M` (M ≠ 0,
M < N), a run of N sequential clients that each send a non-empty
authenticated argument list delivers exactly M argument sets, keeps the
listener running, and ends with `clients = N`; the connections beyond M
are accepted and counted but publish nothing. -/
theorem max_clients_delivery (cfg : Config) (ds : List PyStr) (s : HostState)
    (hrt : cfg.release_threshold = 0) (hM : cfg.max_clients ≠ 0)
    (hall : ∀ d ∈ ds, messageYieldsArgs cfg.secret d = true)
    (hN : cfg.max_clients < ds.length)
    (hl : s.listening = true) (hobs : s.observers ≠ []) (hc : s.clients = 0) :
    (runServer behPure cfg s ds).2.length = cfg.max_clients ∧
    (runServer behPure cfg s ds).1.clients = ds.length ∧
    (runServer behPure cfg s ds).1.listening = true := by
  obtain ⟨hlen, hcl, hlis, _, _⟩ := runServer_maxClients cfg hrt hM ds s hall hl hobs
  refine ⟨?_, ?_, hlis⟩
  · rw [hlen, hc]
    omega
  · rw [hcl, hc]
    omega

/-- Witness for C5: `max_clients = 2`, three clients — exactly 2
deliveries, 3 counted clients, still listening. -/
theorem max_clients_delivery_witness :
    (runServer behPure ⟨"127.0.0.1", 1337, 0, true, true, 0, 2, false, none⟩
        ⟨[], [(0, 0)], 0, true, false⟩
        [encodeMessage none [pyStr "a"], encodeMessage none [pyStr "b"],
         encodeMessage none [pyStr "c"]]).2.length = 2 ∧
    (runServer behPure ⟨"127.0.0.1", 1337, 0, true, true, 0, 2, false, none⟩
        ⟨[], [(0, 0)], 0, true, false⟩
        [encodeMessage none [pyStr "a"], encodeMessage none [pyStr "b"],
         encodeMessage none [pyStr "c"]]).1.clients = 3 ∧
    (runServer behPure ⟨"127.0.0.1", 1337, 0, true, true, 0, 2, false, none⟩
        ⟨[], [(0, 0)], 0, true, false⟩
        [encodeMessage none [pyStr "a"], encodeMessage none [pyStr "b"],
         encodeMessage none [pyStr "c"]]).1.listening = true :=
  max_clients_delivery ⟨"127.0.0.1", 1337, 0, true, true, 0, 2, false, none⟩
    [encodeMessage none [pyStr "a"], encodeMessage none [pyStr "b"],
     encodeMessage none [pyStr "c"]]
    ⟨[], [(0, 0)], 0, true, false⟩ rfl (by decide) (by decide) (by decide) rfl
    (by decide) rfl

/-- C8: publishing an argument set iterates over a snapshot of the
observer registry taken before iteration and invokes every registered
observer, in registration order, with the argument set and its stored
extra parameters — for every callback behaviour, including behaviours
that raise (the exception is caught) or that unregister themselves or
other observers mid-publish (no concurrent-modification failure, and the
invocation log is still the full snapshot). -/
theorem publish_snapshot_spec (beh : ObsBeh) (s : HostState) (args : List PyStr)
    (hobs : s.observers ≠ []) (hlast : s.arguments.getLast? = some args) :
    (updateObservers beh s).2.2 = s.observers.map (fun p => (p.1, args, p.2)) := by
  have hargs : s.arguments ≠ [] := by
    intro h
    rw [h] at hlast
    simp at hlast
  have hcond : ¬ (s.arguments = [] ∨ s.observers = []) := by simp [hargs, hobs]
  simp only [updateObservers]
  rw [if_neg hcond, hlast]
  exact runObsSnapshot_log beh args s.observers s.observers

/-- Witness for C8 with three observers: the first raises, the second
unregisters itself and the third observer; all three are still invoked
in registration order. -/
theorem publish_snapshot_spec_witness :
    (updateObservers
        (fun k _ => if k = 0 then Except.error "boom" else Except.ok [1, 2])
        ⟨[[pyStr "x"]], [(0, 10), (1, 11), (2, 12)], 0, true, false⟩).2.2 =
      [(0, [pyStr "x"], 10), (1, [pyStr "x"], 11), (2, [pyStr "x"], 12)] :=
  publish_snapshot_spec (fun k _ => if k = 0 then Except.error "boom" else Except.ok [1, 2])
    ⟨[[pyStr "x"]], [(0, 10), (1, 11), (2, 12)], 0, true, false⟩ [pyStr "x"]
    (by decide) rfl

/-- C9: the client counter of a host increments by exactly one for every
accepted connection — in every branch of the loop body, including bad
secrets, connections beyond `max_clients` and the connection that fires
the release threshold — and is monotonically non-decreasing over any run
of the accept loop. -/
theorem clients_counter_spec (beh : ObsBeh) (cfg : Config) :
    (∀ (s : HostState) (data : PyStr),
       (serverStep beh cfg s data).state.clients = s.clients + 1) ∧
    (∀ (s : HostState) (ds : List PyStr),
       s.clients ≤ (runServer beh cfg s ds).1.clients) :=
  ⟨fun s data => serverStep_clients beh cfg s data,
   fun s ds => runServer_clients_mono beh cfg ds s⟩

/-- C10: when no observer is registered at the moment a connection is
processed, its payload is not decoded or queued: the pending-argument
queue is unchanged, nothing is delivered then or later, no observer is
invoked — yet the connection is accepted and counted. -/
theorem no_observer_no_processing (beh : ObsBeh) (cfg : Config) (s : HostState)
    (data : PyStr) (hobs : s.observers = []) :
    (serverStep beh cfg s data).state.arguments = s.arguments ∧
    (serverStep beh cfg s data).delivered = [] ∧
    (serverStep beh cfg s data).invocations = [] ∧
    (serverStep beh cfg s data).state.clients = s.clients + 1 := by
  by_cases hK : cfg.release_threshold ≠ 0 ∧ cfg.release_threshold ≤ s.clients + 1
  · rw [serverStep_release beh cfg s data hK.1 hK.2, release_eq]
    cases hl : s.listening <;> simp [hl]
  · have hnp : ¬ ((cfg.max_clients = 0 ∨ s.clients + 1 ≤ cfg.max_clients) ∧
        s.observers ≠ []) := fun h => h.2 hobs
    rw [serverStep_noProcess beh cfg s data hK hnp]
    exact ⟨rfl, rfl, rfl, rfl⟩

/-- Witness for C10: an observerless host accepts and counts a client
but queues and delivers nothing. -/
theorem no_observer_no_processing_witness :
    (serverStep behPure ⟨"127.0.0.1", 1337, 0, true, true, 0, 0, false, none⟩
        ⟨[], [], 0, true, false⟩ (encodeMessage none [pyStr "x"])).state.arguments = [] ∧
    (serverStep behPure ⟨"127.0.0.1", 1337, 0, true, true, 0, 0, false, none⟩
        ⟨[], [], 0, true, false⟩ (encodeMessage none [pyStr "x"])).delivered = [] ∧
    (serverStep behPure ⟨"127.0.0.1", 1337, 0, true, true, 0, 0, false, none⟩
        ⟨[], [], 0, true, false⟩ (encodeMessage none [pyStr "x"])).invocations = [] ∧
    (serverStep behPure ⟨"127.0.0.1", 1337, 0, true, true, 0, 0, false, none⟩
        ⟨[], [], 0, true, false⟩ (encodeMessage none [pyStr "x"])).state.clients = 0 + 1 :=
  no_observer_no_processing behPure ⟨"127.0.0.1", 1337, 0, true, true, 0, 0, false, none⟩
    ⟨[], [], 0, true, false⟩ (encodeMessage none [pyStr "x"]) rfl

end SocketSingleton
